import Mathlib

/-
  Verification development for the exposure-scoring and route-selection engine
  of the IOSChallengers repository.

  The Python sources are shallowly embedded:
  * pollutant concentrations and AQI arithmetic are modelled over the rationals,
    with Python int() modelled as truncation toward zero (qtrunc);
  * geometry and exposure accumulation are modelled over the reals, with the
    Python round(x, n) builtin modelled as round-to-nearest at that decimal
    (ties are essentially impossible at the inputs used, so the half-up
    convention of Mathlib round is adopted);
  * a grid-provider call that can raise is modelled as a function into
    Except Unit; an uncaught Python exception is the error case, which the
    embedding of score_polyline propagates exactly where the source has no
    try/except handler.
-/

/-- Model of Python int() applied to an exact rational: truncation toward zero. -/
def qtrunc (x : ℚ) : ℤ := if 0 ≤ x then ⌊x⌋ else ⌈x⌉

/-- Band 1 of _aqi_from_pm25 (backend/adapters/air/openaq_grid_provider.py line 21). -/
def pm25_band1 (c : ℚ) : ℤ := qtrunc ((50 / 12) * c)

/-- Band 2 of _aqi_from_pm25 (line 22). -/
def pm25_band2 (c : ℚ) : ℤ := qtrunc (50 + (c - 12.1) * 50 / (35.4 - 12.1))

/-- Band 3 of _aqi_from_pm25 (line 23). -/
def pm25_band3 (c : ℚ) : ℤ := qtrunc (100 + (c - 35.5) * 50 / (55.4 - 35.5))

/-- Band 4 of _aqi_from_pm25 (line 24). -/
def pm25_band4 (c : ℚ) : ℤ := qtrunc (150 + (c - 55.5) * 50 / (150.4 - 55.5))

/-- Band 5 of _aqi_from_pm25 (line 25). -/
def pm25_band5 (c : ℚ) : ℤ := qtrunc (200 + (c - 150.5) * 100 / (250.4 - 150.5))

/-- The _aqi_from_pm25 function: if chain over the five bands, saturating at 301.
    This function appears identically in backend and backend-api. -/
def aqi_from_pm25 (pm25 : ℚ) : ℤ :=
  if pm25 ≤ 12 then pm25_band1 pm25
  else if pm25 ≤ 35.4 then pm25_band2 pm25
  else if pm25 ≤ 55.4 then pm25_band3 pm25
  else if pm25 ≤ 150.4 then pm25_band4 pm25
  else if pm25 ≤ 250.4 then pm25_band5 pm25
  else 301

/-- Band 1 of _aqi_from_o3 (line 30), input in ppm. -/
def o3_band1 (c : ℚ) : ℤ := qtrunc ((50 / 0.054) * c)

/-- Band 2 of _aqi_from_o3 (line 31). -/
def o3_band2 (c : ℚ) : ℤ := qtrunc (51 + (c - 0.055) * 49 / (0.070 - 0.055))

/-- Band 3 of _aqi_from_o3 (line 32). -/
def o3_band3 (c : ℚ) : ℤ := qtrunc (101 + (c - 0.071) * 49 / (0.085 - 0.071))

/-- Band 4 of _aqi_from_o3 (line 33). -/
def o3_band4 (c : ℚ) : ℤ := qtrunc (151 + (c - 0.086) * 49 / (0.105 - 0.086))

/-- Band 5 of _aqi_from_o3 (line 34). -/
def o3_band5 (c : ℚ) : ℤ := qtrunc (201 + (c - 0.106) * 99 / (0.200 - 0.106))

/-- The _aqi_from_o3 function (backend provider, lines 28 to 35). -/
def aqi_from_o3 (o3_ppm : ℚ) : ℤ :=
  if o3_ppm ≤ 0.054 then o3_band1 o3_ppm
  else if o3_ppm ≤ 0.070 then o3_band2 o3_ppm
  else if o3_ppm ≤ 0.085 then o3_band3 o3_ppm
  else if o3_ppm ≤ 0.105 then o3_band4 o3_ppm
  else if o3_ppm ≤ 0.200 then o3_band5 o3_ppm
  else 301

/-- Band 1 of _aqi_from_no2 (line 41), input already converted to ppb. -/
def no2_band1 (c : ℚ) : ℤ := qtrunc ((50 / 53) * c)

/-- Band 2 of _aqi_from_no2 (line 42). -/
def no2_band2 (c : ℚ) : ℤ := qtrunc (51 + (c - 54) * 49 / (100 - 54))

/-- Band 3 of _aqi_from_no2 (line 43). -/
def no2_band3 (c : ℚ) : ℤ := qtrunc (101 + (c - 101) * 49 / (360 - 101))

/-- Band 4 of _aqi_from_no2 (line 44). -/
def no2_band4 (c : ℚ) : ℤ := qtrunc (151 + (c - 361) * 49 / (649 - 361))

/-- Band 5 of _aqi_from_no2 (line 45). -/
def no2_band5 (c : ℚ) : ℤ := qtrunc (201 + (c - 650) * 99 / (1249 - 650))

/-- The _aqi_from_no2 function (lines 37 to 46): ppm input is scaled by 1000
    to ppb before the band lookup. -/
def aqi_from_no2 (no2_ppm : ℚ) : ℤ :=
  let no2_ppb := no2_ppm * 1000
  if no2_ppb ≤ 53 then no2_band1 no2_ppb
  else if no2_ppb ≤ 100 then no2_band2 no2_ppb
  else if no2_ppb ≤ 360 then no2_band3 no2_ppb
  else if no2_ppb ≤ 649 then no2_band4 no2_ppb
  else if no2_ppb ≤ 1249 then no2_band5 no2_ppb
  else 301

/-- Band 1 of _aqi_from_pm10 (line 50). -/
def pm10_band1 (c : ℚ) : ℤ := qtrunc ((50 / 54) * c)

/-- Band 2 of _aqi_from_pm10 (line 51). -/
def pm10_band2 (c : ℚ) : ℤ := qtrunc (51 + (c - 55) * 49 / (154 - 55))

/-- Band 3 of _aqi_from_pm10 (line 52). -/
def pm10_band3 (c : ℚ) : ℤ := qtrunc (101 + (c - 155) * 49 / (254 - 155))

/-- Band 4 of _aqi_from_pm10 (line 53). -/
def pm10_band4 (c : ℚ) : ℤ := qtrunc (151 + (c - 255) * 49 / (354 - 255))

/-- Band 5 of _aqi_from_pm10 (line 54). -/
def pm10_band5 (c : ℚ) : ℤ := qtrunc (201 + (c - 355) * 99 / (424 - 355))

/-- The _aqi_from_pm10 function (lines 48 to 55). -/
def aqi_from_pm10 (pm10 : ℚ) : ℤ :=
  if pm10 ≤ 54 then pm10_band1 pm10
  else if pm10 ≤ 154 then pm10_band2 pm10
  else if pm10 ≤ 254 then pm10_band3 pm10
  else if pm10 ≤ 354 then pm10_band4 pm10
  else if pm10 ≤ 424 then pm10_band5 pm10
  else 301

/-- Band 1 of _aqi_from_co (line 59). -/
def co_band1 (c : ℚ) : ℤ := qtrunc ((50 / 4.4) * c)

/-- Band 2 of _aqi_from_co (line 60). -/
def co_band2 (c : ℚ) : ℤ := qtrunc (51 + (c - 4.5) * 49 / (9.4 - 4.5))

/-- Band 3 of _aqi_from_co (line 61). -/
def co_band3 (c : ℚ) : ℤ := qtrunc (101 + (c - 9.5) * 49 / (12.4 - 9.5))

/-- Band 4 of _aqi_from_co (line 62). -/
def co_band4 (c : ℚ) : ℤ := qtrunc (151 + (c - 12.5) * 49 / (15.4 - 12.5))

/-- Band 5 of _aqi_from_co (line 63). -/
def co_band5 (c : ℚ) : ℤ := qtrunc (201 + (c - 15.5) * 99 / (30.4 - 15.5))

/-- The _aqi_from_co function (lines 57 to 64). -/
def aqi_from_co (co_ppm : ℚ) : ℤ :=
  if co_ppm ≤ 4.4 then co_band1 co_ppm
  else if co_ppm ≤ 9.4 then co_band2 co_ppm
  else if co_ppm ≤ 12.4 then co_band3 co_ppm
  else if co_ppm ≤ 15.4 then co_band4 co_ppm
  else if co_ppm ≤ 30.4 then co_band5 co_ppm
  else 301

/-- Band 1 of _aqi_from_so2 (line 70), input already converted to ppb. -/
def so2_band1 (c : ℚ) : ℤ := qtrunc ((50 / 35) * c)

/-- Band 2 of _aqi_from_so2 (line 71). -/
def so2_band2 (c : ℚ) : ℤ := qtrunc (51 + (c - 36) * 49 / (75 - 36))

/-- Band 3 of _aqi_from_so2 (line 72). -/
def so2_band3 (c : ℚ) : ℤ := qtrunc (101 + (c - 76) * 49 / (185 - 76))

/-- Band 4 of _aqi_from_so2 (line 73). -/
def so2_band4 (c : ℚ) : ℤ := qtrunc (151 + (c - 186) * 49 / (304 - 186))

/-- Band 5 of _aqi_from_so2 (line 74). -/
def so2_band5 (c : ℚ) : ℤ := qtrunc (201 + (c - 305) * 99 / (604 - 305))

/-- The _aqi_from_so2 function (lines 66 to 75): ppm scaled by 1000 to ppb. -/
def aqi_from_so2 (so2_ppm : ℚ) : ℤ :=
  let so2_ppb := so2_ppm * 1000
  if so2_ppb ≤ 35 then so2_band1 so2_ppb
  else if so2_ppb ≤ 75 then so2_band2 so2_ppb
  else if so2_ppb ≤ 185 then so2_band3 so2_ppb
  else if so2_ppb ≤ 304 then so2_band4 so2_ppb
  else if so2_ppb ≤ 604 then so2_band5 so2_ppb
  else 301

/-- The values dictionary restricted to the six pollutant keys the composite reads.
    A missing or null entry is none. -/
structure Pollutants where
  pm25 : Option ℚ
  pm10 : Option ℚ
  o3 : Option ℚ
  no2 : Option ℚ
  co : Option ℚ
  so2 : Option ℚ

/-- The reading with every pollutant absent. -/
def emptyPollutants : Pollutants := ⟨none, none, none, none, none, none⟩

/-- The backend _aqi_from_pollutants (backend provider, lines 77 to 113):
    collect the sub-index of every present pollutant in source order, then take
    the maximum, or 0 when no pollutant is present. -/
def aqi_from_pollutants (v : Pollutants) : ℤ :=
  let subs : List ℤ :=
    (match v.pm25 with | some x => [aqi_from_pm25 x] | none => []) ++
    (match v.pm10 with | some x => [aqi_from_pm10 x] | none => []) ++
    (match v.o3 with | some x => [aqi_from_o3 x] | none => []) ++
    (match v.no2 with | some x => [aqi_from_no2 x] | none => []) ++
    (match v.co with | some x => [aqi_from_co x] | none => []) ++
    (match v.so2 with | some x => [aqi_from_so2 x] | none => [])
  match subs.max? with
  | some m => m
  | none => 0

/-- The backend-api duplicate _aqi_from_pollutants
    (backend-api provider, lines 27 to 32): only pm25 is consulted. -/
def api_aqi_from_pollutants (v : Pollutants) : ℤ :=
  let subs : List ℤ := match v.pm25 with | some x => [aqi_from_pm25 x] | none => []
  match subs.max? with
  | some m => m
  | none => 0

/-- Spec-side composite: the list of sub-indices of the pollutants present in
    the reading, built by mapping each optional field through its sub-index
    function and discarding the absent ones. -/
def present_subindices (v : Pollutants) : List ℤ :=
  [v.pm25.map aqi_from_pm25, v.pm10.map aqi_from_pm10, v.o3.map aqi_from_o3,
   v.no2.map aqi_from_no2, v.co.map aqi_from_co, v.so2.map aqi_from_so2].reduceOption

/-- Spec-side composite AQI: maximum of the present sub-indices, 0 when the
    reading is empty. -/
def composite_aqi_spec (v : Pollutants) : ℤ := (present_subindices v).max?.getD 0

/-- Modelled from the spec: the interpolation formula of section 4.1, namely
    index_lower + (c - conc_lower) * (index_upper - index_lower) /
    (conc_upper - conc_lower), floored, over a table scanned in ascending order
    taking the first band whose upper bound is at least the value, saturating
    at 301 above the last band. -/
def spec_band_index : List (ℚ × ℚ × ℤ × ℤ) → ℚ → ℤ
  | [], _ => 301
  | (lo, hi, ilo, ihi) :: rest, c =>
    if c ≤ hi then ⌊(ilo : ℚ) + (c - lo) * ((ihi : ℚ) - (ilo : ℚ)) / (hi - lo)⌋
    else spec_band_index rest c

/-- Same table-driven lookup but with Python int() truncation, used to restate
    the code behaviour with its actual (offset) band lower bounds. -/
def band_index_code : List (ℚ × ℚ × ℤ × ℤ) → ℚ → ℤ
  | [], _ => 301
  | (lo, hi, ilo, ihi) :: rest, c =>
    if c ≤ hi then qtrunc ((ilo : ℚ) + (c - lo) * ((ihi : ℚ) - (ilo : ℚ)) / (hi - lo))
    else band_index_code rest c

/-- The PM2.5 table exactly as the spec lists it. -/
def pm25_bands_spec : List (ℚ × ℚ × ℤ × ℤ) :=
  [(0, 12, 0, 50), (12, 35.4, 50, 100), (35.4, 55.4, 100, 150),
   (55.4, 150.4, 150, 200), (150.4, 250.4, 200, 300)]

/-- The PM2.5 table as the code actually uses it: each band above the first has
    its lower concentration bound offset one reporting increment above the
    previous upper bound. -/
def pm25_bands_adj : List (ℚ × ℚ × ℤ × ℤ) :=
  [(0, 12, 0, 50), (12.1, 35.4, 50, 100), (35.5, 55.4, 100, 150),
   (55.5, 150.4, 150, 200), (150.5, 250.4, 200, 300)]

/-- The O3 table as the code uses it (ppm). -/
def o3_bands_adj : List (ℚ × ℚ × ℤ × ℤ) :=
  [(0, 0.054, 0, 50), (0.055, 0.070, 51, 100), (0.071, 0.085, 101, 150),
   (0.086, 0.105, 151, 200), (0.106, 0.200, 201, 300)]

/-- The NO2 table as the code uses it (ppb). -/
def no2_bands_adj : List (ℚ × ℚ × ℤ × ℤ) :=
  [(0, 53, 0, 50), (54, 100, 51, 100), (101, 360, 101, 150),
   (361, 649, 151, 200), (650, 1249, 201, 300)]

/-- The PM10 table as the code uses it. -/
def pm10_bands_adj : List (ℚ × ℚ × ℤ × ℤ) :=
  [(0, 54, 0, 50), (55, 154, 51, 100), (155, 254, 101, 150),
   (255, 354, 151, 200), (355, 424, 201, 300)]

/-- The CO table as the code uses it (ppm). -/
def co_bands_adj : List (ℚ × ℚ × ℤ × ℤ) :=
  [(0, 4.4, 0, 50), (4.5, 9.4, 51, 100), (9.5, 12.4, 101, 150),
   (12.5, 15.4, 151, 200), (15.5, 30.4, 201, 300)]

/-- The SO2 table as the code uses it (ppb). -/
def so2_bands_adj : List (ℚ × ℚ × ℤ × ℤ) :=
  [(0, 35, 0, 50), (36, 75, 51, 100), (76, 185, 101, 150),
   (186, 304, 151, 200), (305, 604, 201, 300)]

/-- Evaluation helper: Python int() of a nonnegative rational known to lie in
    the integer window [n, n+1). -/
lemma qtrunc_eval {x : ℚ} {n : ℤ} (h0 : 0 ≤ x) (h1 : (n : ℚ) ≤ x) (h2 : x < n + 1) :
    qtrunc x = n := by
  rw [qtrunc, if_pos h0, Int.floor_eq_iff]
  exact ⟨h1, h2⟩

/-- C3 counterexample: a reading holding only pm10 = 500. The backend composite
    honours it (sub-index 301), but the backend-api duplicate of
    _aqi_from_pollutants ignores every pollutant except pm25 and returns 0,
    refuting the claim that the composite is the maximum over all pollutants
    present among the six for every reading. -/
theorem C3_counterexample :
    api_aqi_from_pollutants ⟨none, some 500, none, none, none, none⟩ = 0 ∧
    aqi_from_pm10 500 = 301 ∧
    aqi_from_pollutants ⟨none, some 500, none, none, none, none⟩ = 301 ∧
    (0 : ℤ) ≠ 301 := by
  have h301 : aqi_from_pm10 500 = 301 := by norm_num [aqi_from_pm10]
  refine ⟨rfl, h301, ?_, by decide⟩
  show aqi_from_pm10 500 = 301
  exact h301

/-- C3 amended: the backend _aqi_from_pollutants equals the maximum of the
    sub-indices of the pollutants present among pm25, pm10, o3, no2, co, so2
    (missing pollutant excluded, empty reading giving 0), while the
    backend-api duplicate returns the pm25 sub-index when pm25 is present and
    0 otherwise, ignoring the other five pollutants. -/
theorem C3_composite_amended :
    (∀ v : Pollutants, aqi_from_pollutants v = composite_aqi_spec v) ∧
    (∀ v : Pollutants, api_aqi_from_pollutants v = (v.pm25.map aqi_from_pm25).getD 0) ∧
    aqi_from_pollutants emptyPollutants = 0 ∧
    api_aqi_from_pollutants emptyPollutants = 0 := by
  refine ⟨?_, ?_, rfl, rfl⟩
  · intro v
    obtain ⟨p1, p2, p3, p4, p5, p6⟩ := v
    cases p1 <;> cases p2 <;> cases p3 <;> cases p4 <;> cases p5 <;> cases p6 <;> rfl
  · intro v
    obtain ⟨p1, p2, p3, p4, p5, p6⟩ := v
    cases p1 <;> rfl

/-- C4 counterexample: at pm25 = 20 the spec interpolation formula over the
    listed table gives floor(50 + (20 - 12) * 50 / 23.4) = 67, while the code
    computes int(50 + (20 - 12.1) * 50 / 23.3) = 66, because the code offsets
    the lower concentration bound of each band above the first. -/
theorem C4_counterexample :
    spec_band_index pm25_bands_spec 20 = 67 ∧ aqi_from_pm25 20 = 66 ∧ (67 : ℤ) ≠ 66 := by
  refine ⟨?_, ?_, by decide⟩
  · have h : spec_band_index pm25_bands_spec 20
        = ⌊(50 : ℚ) + ((20 : ℚ) - 12) * (((100 : ℤ) : ℚ) - ((50 : ℤ) : ℚ)) / (35.4 - 12)⌋ := by
      norm_num [spec_band_index, pm25_bands_spec]
    rw [h, Int.floor_eq_iff]
    constructor <;> norm_num
  · have h : aqi_from_pm25 20 = pm25_band2 20 := by norm_num [aqi_from_pm25]
    rw [h, pm25_band2]
    exact qtrunc_eval (by norm_num) (by norm_num) (by norm_num)

/-- C4 amended: each sub-index function is the table lookup with Python int()
    truncation over the adjusted tables, in which every band above the first
    starts one reporting increment above the previous upper bound and carries
    the index range the code hard-wires (PM2.5 keeps bases 50, 100, 150, 200;
    the other pollutants use bases 51, 101, 151, 201 with spans 49, 49, 49,
    99); concentrations above the last band return exactly 301, and NO2 and
    SO2 are converted from ppm to ppb by multiplying by 1000 before lookup. -/
theorem C4_bands_amended :
    ∀ c : ℚ,
      aqi_from_pm25 c = band_index_code pm25_bands_adj c ∧
      aqi_from_pm10 c = band_index_code pm10_bands_adj c ∧
      aqi_from_o3 c = band_index_code o3_bands_adj c ∧
      aqi_from_no2 c = band_index_code no2_bands_adj (c * 1000) ∧
      aqi_from_co c = band_index_code co_bands_adj c ∧
      aqi_from_so2 c = band_index_code so2_bands_adj (c * 1000) := by
  intro c
  refine ⟨?_, ?_, ?_, ?_, ?_, ?_⟩
  · simp only [aqi_from_pm25, band_index_code, pm25_bands_adj,
      pm25_band1, pm25_band2, pm25_band3, pm25_band4, pm25_band5]
    split_ifs <;> first
      | rfl
      | (congr 1; push_cast; ring)
  · simp only [aqi_from_pm10, band_index_code, pm10_bands_adj,
      pm10_band1, pm10_band2, pm10_band3, pm10_band4, pm10_band5]
    split_ifs <;> first
      | rfl
      | (congr 1; push_cast; ring)
  · simp only [aqi_from_o3, band_index_code, o3_bands_adj,
      o3_band1, o3_band2, o3_band3, o3_band4, o3_band5]
    split_ifs <;> first
      | rfl
      | (congr 1; push_cast; ring)
  · simp only [aqi_from_no2, band_index_code, no2_bands_adj,
      no2_band1, no2_band2, no2_band3, no2_band4, no2_band5]
    split_ifs <;> first
      | rfl
      | (congr 1; push_cast; ring)
  · simp only [aqi_from_co, band_index_code, co_bands_adj,
      co_band1, co_band2, co_band3, co_band4, co_band5]
    split_ifs <;> first
      | rfl
      | (congr 1; push_cast; ring)
  · simp only [aqi_from_so2, band_index_code, so2_bands_adj,
      so2_band1, so2_band2, so2_band3, so2_band4, so2_band5]
    split_ifs <;> first
      | rfl
      | (congr 1; push_cast; ring)

/-- C7 counterexample: at the first O3 boundary, the first band formula gives
    50 at its upper bound 0.054 ppm while the second band formula evaluated at
    that same lower bound gives 47, a discontinuity of 3 units, refuting the
    claim that all adjacent bands agree within 1 unit. -/
theorem C7_counterexample :
    o3_band1 0.054 = 50 ∧ o3_band2 0.054 = 47 ∧ ¬ ((50 - 47 : ℤ).natAbs ≤ 1) := by
  refine ⟨?_, ?_, by decide⟩
  · rw [o3_band1]; exact qtrunc_eval (by norm_num) (by norm_num) (by norm_num)
  · rw [o3_band2]; exact qtrunc_eval (by norm_num) (by norm_num) (by norm_num)

/-- C7 amended: at every band boundary of PM2.5, PM10, NO2, CO and SO2 the two
    adjacent band formulas agree within 1 unit (including the step from the top
    band value 300 to the saturation value 301), but for O3 the first three
    boundaries disagree by 3, 3 and 2 units respectively; all boundaries agree
    within 3 units. -/
theorem C7_boundary_amended :
    ((pm25_band1 12 - pm25_band2 12).natAbs ≤ 1 ∧
     (pm25_band2 35.4 - pm25_band3 35.4).natAbs ≤ 1 ∧
     (pm25_band3 55.4 - pm25_band4 55.4).natAbs ≤ 1 ∧
     (pm25_band4 150.4 - pm25_band5 150.4).natAbs ≤ 1 ∧
     (pm25_band5 250.4 - 301).natAbs ≤ 1) ∧
    ((pm10_band1 54 - pm10_band2 54).natAbs ≤ 1 ∧
     (pm10_band2 154 - pm10_band3 154).natAbs ≤ 1 ∧
     (pm10_band3 254 - pm10_band4 254).natAbs ≤ 1 ∧
     (pm10_band4 354 - pm10_band5 354).natAbs ≤ 1 ∧
     (pm10_band5 424 - 301).natAbs ≤ 1) ∧
    ((no2_band1 53 - no2_band2 53).natAbs ≤ 1 ∧
     (no2_band2 100 - no2_band3 100).natAbs ≤ 1 ∧
     (no2_band3 360 - no2_band4 360).natAbs ≤ 1 ∧
     (no2_band4 649 - no2_band5 649).natAbs ≤ 1 ∧
     (no2_band5 1249 - 301).natAbs ≤ 1) ∧
    ((co_band1 4.4 - co_band2 4.4).natAbs ≤ 1 ∧
     (co_band2 9.4 - co_band3 9.4).natAbs ≤ 1 ∧
     (co_band3 12.4 - co_band4 12.4).natAbs ≤ 1 ∧
     (co_band4 15.4 - co_band5 15.4).natAbs ≤ 1 ∧
     (co_band5 30.4 - 301).natAbs ≤ 1) ∧
    ((so2_band1 35 - so2_band2 35).natAbs ≤ 1 ∧
     (so2_band2 75 - so2_band3 75).natAbs ≤ 1 ∧
     (so2_band3 185 - so2_band4 185).natAbs ≤ 1 ∧
     (so2_band4 304 - so2_band5 304).natAbs ≤ 1 ∧
     (so2_band5 604 - 301).natAbs ≤ 1) ∧
    ((o3_band1 0.054 - o3_band2 0.054).natAbs = 3 ∧
     (o3_band2 0.070 - o3_band3 0.070).natAbs = 3 ∧
     (o3_band3 0.085 - o3_band4 0.085).natAbs = 2 ∧
     (o3_band4 0.105 - o3_band5 0.105).natAbs ≤ 1 ∧
     (o3_band5 0.200 - 301).natAbs ≤ 1) := by
  have e1 : pm25_band1 12 = 50 := by
    rw [pm25_band1]; exact qtrunc_eval (by norm_num) (by norm_num) (by norm_num)
  have e2 : pm25_band2 12 = 49 := by
    rw [pm25_band2]; exact qtrunc_eval (by norm_num) (by norm_num) (by norm_num)
  have e3 : pm25_band2 35.4 = 100 := by
    rw [pm25_band2]; exact qtrunc_eval (by norm_num) (by norm_num) (by norm_num)
  have e4 : pm25_band3 35.4 = 99 := by
    rw [pm25_band3]; exact qtrunc_eval (by norm_num) (by norm_num) (by norm_num)
  have e5 : pm25_band3 55.4 = 150 := by
    rw [pm25_band3]; exact qtrunc_eval (by norm_num) (by norm_num) (by norm_num)
  have e6 : pm25_band4 55.4 = 149 := by
    rw [pm25_band4]; exact qtrunc_eval (by norm_num) (by norm_num) (by norm_num)
  have e7 : pm25_band4 150.4 = 200 := by
    rw [pm25_band4]; exact qtrunc_eval (by norm_num) (by norm_num) (by norm_num)
  have e8 : pm25_band5 150.4 = 199 := by
    rw [pm25_band5]; exact qtrunc_eval (by norm_num) (by norm_num) (by norm_num)
  have e9 : pm25_band5 250.4 = 300 := by
    rw [pm25_band5]; exact qtrunc_eval (by norm_num) (by norm_num) (by norm_num)
  have f1 : pm10_band1 54 = 50 := by
    rw [pm10_band1]; exact qtrunc_eval (by norm_num) (by norm_num) (by norm_num)
  have f2 : pm10_band2 54 = 50 := by
    rw [pm10_band2]; exact qtrunc_eval (by norm_num) (by norm_num) (by norm_num)
  have f3 : pm10_band2 154 = 100 := by
    rw [pm10_band2]; exact qtrunc_eval (by norm_num) (by norm_num) (by norm_num)
  have f4 : pm10_band3 154 = 100 := by
    rw [pm10_band3]; exact qtrunc_eval (by norm_num) (by norm_num) (by norm_num)
  have f5 : pm10_band3 254 = 150 := by
    rw [pm10_band3]; exact qtrunc_eval (by norm_num) (by norm_num) (by norm_num)
  have f6 : pm10_band4 254 = 150 := by
    rw [pm10_band4]; exact qtrunc_eval (by norm_num) (by norm_num) (by norm_num)
  have f7 : pm10_band4 354 = 200 := by
    rw [pm10_band4]; exact qtrunc_eval (by norm_num) (by norm_num) (by norm_num)
  have f8 : pm10_band5 354 = 199 := by
    rw [pm10_band5]; exact qtrunc_eval (by norm_num) (by norm_num) (by norm_num)
  have f9 : pm10_band5 424 = 300 := by
    rw [pm10_band5]; exact qtrunc_eval (by norm_num) (by norm_num) (by norm_num)
  have g1 : no2_band1 53 = 50 := by
    rw [no2_band1]; exact qtrunc_eval (by norm_num) (by norm_num) (by norm_num)
  have g2 : no2_band2 53 = 49 := by
    rw [no2_band2]; exact qtrunc_eval (by norm_num) (by norm_num) (by norm_num)
  have g3 : no2_band2 100 = 100 := by
    rw [no2_band2]; exact qtrunc_eval (by norm_num) (by norm_num) (by norm_num)
  have g4 : no2_band3 100 = 100 := by
    rw [no2_band3]; exact qtrunc_eval (by norm_num) (by norm_num) (by norm_num)
  have g5 : no2_band3 360 = 150 := by
    rw [no2_band3]; exact qtrunc_eval (by norm_num) (by norm_num) (by norm_num)
  have g6 : no2_band4 360 = 150 := by
    rw [no2_band4]; exact qtrunc_eval (by norm_num) (by norm_num) (by norm_num)
  have g7 : no2_band4 649 = 200 := by
    rw [no2_band4]; exact qtrunc_eval (by norm_num) (by norm_num) (by norm_num)
  have g8 : no2_band5 649 = 200 := by
    rw [no2_band5]; exact qtrunc_eval (by norm_num) (by norm_num) (by norm_num)
  have g9 : no2_band5 1249 = 300 := by
    rw [no2_band5]; exact qtrunc_eval (by norm_num) (by norm_num) (by norm_num)
  have k1 : co_band1 4.4 = 50 := by
    rw [co_band1]; exact qtrunc_eval (by norm_num) (by norm_num) (by norm_num)
  have k2 : co_band2 4.4 = 50 := by
    rw [co_band2]; exact qtrunc_eval (by norm_num) (by norm_num) (by norm_num)
  have k3 : co_band2 9.4 = 100 := by
    rw [co_band2]; exact qtrunc_eval (by norm_num) (by norm_num) (by norm_num)
  have k4 : co_band3 9.4 = 99 := by
    rw [co_band3]; exact qtrunc_eval (by norm_num) (by norm_num) (by norm_num)
  have k5 : co_band3 12.4 = 150 := by
    rw [co_band3]; exact qtrunc_eval (by norm_num) (by norm_num) (by norm_num)
  have k6 : co_band4 12.4 = 149 := by
    rw [co_band4]; exact qtrunc_eval (by norm_num) (by norm_num) (by norm_num)
  have k7 : co_band4 15.4 = 200 := by
    rw [co_band4]; exact qtrunc_eval (by norm_num) (by norm_num) (by norm_num)
  have k8 : co_band5 15.4 = 200 := by
    rw [co_band5]; exact qtrunc_eval (by norm_num) (by norm_num) (by norm_num)
  have k9 : co_band5 30.4 = 300 := by
    rw [co_band5]; exact qtrunc_eval (by norm_num) (by norm_num) (by norm_num)
  have m1 : so2_band1 35 = 50 := by
    rw [so2_band1]; exact qtrunc_eval (by norm_num) (by norm_num) (by norm_num)
  have m2 : so2_band2 35 = 49 := by
    rw [so2_band2]; exact qtrunc_eval (by norm_num) (by norm_num) (by norm_num)
  have m3 : so2_band2 75 = 100 := by
    rw [so2_band2]; exact qtrunc_eval (by norm_num) (by norm_num) (by norm_num)
  have m4 : so2_band3 75 = 100 := by
    rw [so2_band3]; exact qtrunc_eval (by norm_num) (by norm_num) (by norm_num)
  have m5 : so2_band3 185 = 150 := by
    rw [so2_band3]; exact qtrunc_eval (by norm_num) (by norm_num) (by norm_num)
  have m6 : so2_band4 185 = 150 := by
    rw [so2_band4]; exact qtrunc_eval (by norm_num) (by norm_num) (by norm_num)
  have m7 : so2_band4 304 = 200 := by
    rw [so2_band4]; exact qtrunc_eval (by norm_num) (by norm_num) (by norm_num)
  have m8 : so2_band5 304 = 200 := by
    rw [so2_band5]; exact qtrunc_eval (by norm_num) (by norm_num) (by norm_num)
  have m9 : so2_band5 604 = 300 := by
    rw [so2_band5]; exact qtrunc_eval (by norm_num) (by norm_num) (by norm_num)
  have n1 : o3_band1 0.054 = 50 := by
    rw [o3_band1]; exact qtrunc_eval (by norm_num) (by norm_num) (by norm_num)
  have n2 : o3_band2 0.054 = 47 := by
    rw [o3_band2]; exact qtrunc_eval (by norm_num) (by norm_num) (by norm_num)
  have n3 : o3_band2 0.070 = 100 := by
    rw [o3_band2]; exact qtrunc_eval (by norm_num) (by norm_num) (by norm_num)
  have n4 : o3_band3 0.070 = 97 := by
    rw [o3_band3]; exact qtrunc_eval (by norm_num) (by norm_num) (by norm_num)
  have n5 : o3_band3 0.085 = 150 := by
    rw [o3_band3]; exact qtrunc_eval (by norm_num) (by norm_num) (by norm_num)
  have n6 : o3_band4 0.085 = 148 := by
    rw [o3_band4]; exact qtrunc_eval (by norm_num) (by norm_num) (by norm_num)
  have n7 : o3_band4 0.105 = 200 := by
    rw [o3_band4]; exact qtrunc_eval (by norm_num) (by norm_num) (by norm_num)
  have n8 : o3_band5 0.105 = 199 := by
    rw [o3_band5]; exact qtrunc_eval (by norm_num) (by norm_num) (by norm_num)
  have n9 : o3_band5 0.200 = 300 := by
    rw [o3_band5]; exact qtrunc_eval (by norm_num) (by norm_num) (by norm_num)
  rw [e1, e2, e3, e4, e5, e6, e7, e8, e9, f1, f2, f3, f4, f5, f6, f7, f8, f9,
    g1, g2, g3, g4, g5, g6, g7, g8, g9, k1, k2, k3, k4, k5, k6, k7, k8, k9,
    m1, m2, m3, m4, m5, m6, m7, m8, m9, n1, n2, n3, n4, n5, n6, n7, n8, n9]
  decide

/-- Travel modes accepted by the exposure service (MODE_SPEED_KMH keys). -/
inductive Mode
  | walk
  | run
  | bike
deriving DecidableEq

/-- MODE_SPEED_KMH (backend-api exposure.py line 2). -/
def mode_speed_kmh : Mode → ℝ
  | Mode.walk => 4.8
  | Mode.run => 9.0
  | Mode.bike => 15.0

/-- MODE_INHAL (line 3). -/
def mode_inhal : Mode → ℝ
  | Mode.walk => 1.0
  | Mode.run => 1.2
  | Mode.bike => 0.9

/-- The slice of a grid-provider payload that score_polyline reads: the aqi
    entry, with none standing for an absent or null value. -/
structure GridEnv where
  aqi : Option ℝ

/-- Model of Python round(x, 1): nearest multiple of one tenth. -/
noncomputable def round1 (x : ℝ) : ℝ := ((round (x * 10) : ℤ) : ℝ) / 10

/-- Model of Python round(x, 2): nearest multiple of one hundredth. -/
noncomputable def round2 (x : ℝ) : ℝ := ((round (x * 100) : ℤ) : ℝ) / 100

/-- Model of Python int() on a real: truncation toward zero. -/
noncomputable def rtrunc (x : ℝ) : ℤ := if 0 ≤ x then ⌊x⌋ else ⌈x⌉

/-- Python math.radians. -/
noncomputable def radians (x : ℝ) : ℝ := x * Real.pi / 180

/-- Python math.atan2 y x, as the argument of the complex number x + y i. -/
noncomputable def atan2 (y x : ℝ) : ℝ := Complex.arg ((x : ℂ) + (y : ℂ) * Complex.I)

/-- The local value a of _haversine_m (backend-api exposure.py lines 10 to 11). -/
noncomputable def hav_a (lat1 lon1 lat2 lon2 : ℝ) : ℝ :=
  Real.sin (radians (lat2 - lat1) / 2) ^ 2 +
    Real.cos (radians lat1) * Real.cos (radians lat2) *
      Real.sin (radians (lon2 - lon1) / 2) ^ 2

/-- The _haversine_m method of ExposureService (lines 8 to 12). Note the order
    of the two atan2 arguments: the source passes sqrt(1 - a) first. -/
noncomputable def haversine_m (lat1 lon1 lat2 lon2 : ℝ) : ℝ :=
  2 * 6371000 *
    atan2 (Real.sqrt (1 - hav_a lat1 lon1 lat2 lon2))
      (Real.sqrt (hav_a lat1 lon1 lat2 lon2))

/-- One entry of the segs list built by score_polyline (lines 27 to 28).
    The source dictionary stores from and to as lon-lat pairs. -/
structure Seg where
  src : ℝ × ℝ
  dst : ℝ × ℝ
  len_m : ℤ
  dur_s : ℤ
  aqi : ℤ
  exposure : ℝ

/-- The loop of score_polyline (lines 17 to 28) over consecutive point pairs,
    carrying the running exposure sum, the running aqi maximum and the segment
    list. The grid provider is a function into Except Unit GridEnv; its error
    case models an exception escaping get_aqi_cell, which the loop propagates
    because the source has no handler around the call. -/
noncomputable def score_loop (grid : ℝ → ℝ → Except Unit GridEnv) (mode : Mode) :
    List (ℝ × ℝ) → ℝ → ℤ → List Seg → Except Unit (ℝ × ℤ × List Seg)
  | p :: q :: rest, exposure, maxAqi, segs =>
    let dist := haversine_m p.1 p.2 q.1 q.2
    let durS := max 1 (dist / (mode_speed_kmh mode * 1000 / 3600))
    match grid ((p.1 + q.1) / 2) ((p.2 + q.2) / 2) with
    | Except.error e => Except.error e
    | Except.ok env =>
      let aqiSeg : ℤ := round (env.aqi.getD 0)
      let segExp := (aqiSeg : ℝ) * (durS / 60) * mode_inhal mode
      score_loop grid mode (q :: rest) (exposure + segExp) (max maxAqi aqiSeg)
        (segs ++ [{ src := (p.2, p.1), dst := (q.2, q.1), len_m := rtrunc dist,
                    dur_s := rtrunc durS, aqi := aqiSeg, exposure := round1 segExp }])
  | _, exposure, maxAqi, segs => Except.ok (round1 exposure, maxAqi, segs)

/-- The score_polyline method (lines 14 to 29), taking the decoded point list
    directly; decoding of the encoded polyline string is delegated by the
    source to the external polyline package and is outside this engine. -/
noncomputable def score_polyline (grid : ℝ → ℝ → Except Unit GridEnv) (mode : Mode)
    (pts : List (ℝ × ℝ)) : Except Unit (ℝ × ℤ × List Seg) :=
  score_loop grid mode pts 0 0 []

/-- The same loop specialised to a provider that never raises, used to state
    results about successful runs. -/
noncomputable def score_loop_t (g : ℝ → ℝ → GridEnv) (mode : Mode) :
    List (ℝ × ℝ) → ℝ → ℤ → List Seg → ℝ × ℤ × List Seg
  | p :: q :: rest, exposure, maxAqi, segs =>
    let dist := haversine_m p.1 p.2 q.1 q.2
    let durS := max 1 (dist / (mode_speed_kmh mode * 1000 / 3600))
    let env := g ((p.1 + q.1) / 2) ((p.2 + q.2) / 2)
    let aqiSeg : ℤ := round (env.aqi.getD 0)
    let segExp := (aqiSeg : ℝ) * (durS / 60) * mode_inhal mode
    score_loop_t g mode (q :: rest) (exposure + segExp) (max maxAqi aqiSeg)
      (segs ++ [{ src := (p.2, p.1), dst := (q.2, q.1), len_m := rtrunc dist,
                  dur_s := rtrunc durS, aqi := aqiSeg, exposure := round1 segExp }])
  | _, exposure, maxAqi, segs => (round1 exposure, maxAqi, segs)

/-- Result of score_polyline under a provider that never raises. -/
noncomputable def score_t (g : ℝ → ℝ → GridEnv) (mode : Mode)
    (pts : List (ℝ × ℝ)) : ℝ × ℤ × List Seg :=
  score_loop_t g mode pts 0 0 []

/-- A provider that never raises makes score_loop agree with score_loop_t. -/
lemma score_loop_total (g : ℝ → ℝ → GridEnv) (mode : Mode) :
    ∀ (pts : List (ℝ × ℝ)) (e : ℝ) (m : ℤ) (s : List Seg),
      score_loop (fun a b => Except.ok (g a b)) mode pts e m s
        = Except.ok (score_loop_t g mode pts e m s)
  | [], _, _, _ => rfl
  | [_], _, _, _ => rfl
  | p :: q :: rest, e, m, s => by
    simp only [score_loop, score_loop_t]
    exact score_loop_total g mode (q :: rest) _ _ _

/-- A provider that never raises makes score_polyline succeed with score_t. -/
lemma score_polyline_total (g : ℝ → ℝ → GridEnv) (mode : Mode) (pts : List (ℝ × ℝ)) :
    score_polyline (fun a b => Except.ok (g a b)) mode pts = Except.ok (score_t g mode pts) :=
  score_loop_total g mode pts 0 0 []

/-- The local quantity a of the haversine body is symmetric in its two coordinates. -/
lemma hav_a_symm (lat1 lon1 lat2 lon2 : ℝ) :
    hav_a lat1 lon1 lat2 lon2 = hav_a lat2 lon2 lat1 lon1 := by
  have key : ∀ u v : ℝ, Real.sin (radians (u - v) / 2) ^ 2
      = Real.sin (radians (v - u) / 2) ^ 2 := by
    intro u v
    have h : radians (u - v) / 2 = -(radians (v - u) / 2) := by
      unfold radians; ring
    rw [h, Real.sin_neg]
    ring
  unfold hav_a
  rw [key lat2 lat1, key lon2 lon1, mul_comm (Real.cos (radians lat1))]

/-- The distance function is symmetric in its two coordinates. -/
lemma haversine_symm (lat1 lon1 lat2 lon2 : ℝ) :
    haversine_m lat1 lon1 lat2 lon2 = haversine_m lat2 lon2 lat1 lon1 := by
  unfold haversine_m
  rw [hav_a_symm]

/-- Closed form of the distance the code computes between two equator points
    whose longitude difference lies in [0, 180]: because the two atan2
    arguments are swapped in the source, the result is the complement
    6371000 * pi * (180 - dlon) / 180 instead of the haversine value
    6371000 * pi * dlon / 180. -/
lemma haversine_equator (l1 l2 : ℝ) (h0 : 0 ≤ l2 - l1) (h180 : l2 - l1 ≤ 180) :
    haversine_m 0 l1 0 l2 = 6371000 * Real.pi * (180 - (l2 - l1)) / 180 := by
  have hpi := Real.pi_pos
  set θ : ℝ := (l2 - l1) * Real.pi / 360 with hθdef
  have hθ0 : 0 ≤ θ := by
    rw [hθdef]
    positivity
  have hθ2 : θ ≤ Real.pi / 2 := by
    rw [hθdef]
    rw [div_le_div_iff₀ (by norm_num) (by norm_num)]
    nlinarith
  have ha : hav_a 0 l1 0 l2 = Real.sin θ ^ 2 := by
    unfold hav_a radians
    rw [sub_self]
    norm_num
    rw [show (l2 - l1) * Real.pi / 180 / 2 = θ from by rw [hθdef]; ring]
  have hsin : 0 ≤ Real.sin θ :=
    Real.sin_nonneg_of_nonneg_of_le_pi hθ0 (by linarith)
  have hcos : 0 ≤ Real.cos θ :=
    Real.cos_nonneg_of_mem_Icc ⟨by linarith, hθ2⟩
  have hone : (1 : ℝ) - Real.sin θ ^ 2 = Real.cos θ ^ 2 := by
    have := Real.sin_sq_add_cos_sq θ
    linarith
  unfold haversine_m atan2
  rw [ha, hone, Real.sqrt_sq hsin, Real.sqrt_sq hcos]
  have h2 : ((Real.sin θ : ℝ) : ℂ) = Complex.cos (((Real.pi / 2 - θ : ℝ) : ℂ)) := by
    rw [← Complex.ofReal_cos, Real.cos_pi_div_two_sub]
  have h3 : ((Real.cos θ : ℝ) : ℂ) = Complex.sin (((Real.pi / 2 - θ : ℝ) : ℂ)) := by
    rw [← Complex.ofReal_sin, Real.sin_pi_div_two_sub]
  rw [h2, h3, Complex.arg_cos_add_sin_mul_I ⟨by linarith, by linarith⟩]
  rw [hθdef]
  ring

/-- Evaluation helper: Python round() of a real known to lie in [n - 1/2, n + 1/2). -/
lemma round_real_eval {x : ℝ} {n : ℤ} (h1 : (n : ℝ) ≤ x + 1 / 2) (h2 : x + 1 / 2 < n + 1) :
    round x = n := by
  rw [round_eq, Int.floor_eq_iff.mpr ⟨h1, h2⟩]

/-- Evaluation helper for round1 through the window of its scaled floor. -/
lemma round1_eval {x : ℝ} {n : ℤ} (h1 : (n : ℝ) ≤ x * 10 + 1 / 2) (h2 : x * 10 + 1 / 2 < n + 1) :
    round1 x = (n : ℝ) / 10 := by
  rw [round1, round_eq, Int.floor_eq_iff.mpr ⟨h1, h2⟩]

/-- One unfolding step of score_loop on a successful provider response, with
    every derived quantity supplied as an equation. -/
lemma score_loop_cons_eval (grid : ℝ → ℝ → Except Unit GridEnv) (mode : Mode)
    (p q : ℝ × ℝ) (rest : List (ℝ × ℝ)) (e : ℝ) (m : ℤ) (segs : List Seg)
    (env : GridEnv) (dist dur segexp : ℝ) (aqiv : ℤ)
    (hgrid : grid ((p.1 + q.1) / 2) ((p.2 + q.2) / 2) = Except.ok env)
    (hdist : haversine_m p.1 p.2 q.1 q.2 = dist)
    (hdur : max 1 (dist / (mode_speed_kmh mode * 1000 / 3600)) = dur)
    (haqi : round (env.aqi.getD 0) = aqiv)
    (hexp : (aqiv : ℝ) * (dur / 60) * mode_inhal mode = segexp) :
    score_loop grid mode (p :: q :: rest) e m segs
      = score_loop grid mode (q :: rest) (e + segexp) (max m aqiv)
          (segs ++ [{ src := (p.2, p.1), dst := (q.2, q.1), len_m := rtrunc dist,
                      dur_s := rtrunc dur, aqi := aqiv, exposure := round1 segexp }]) := by
  subst hexp
  subst haqi
  subst hdur
  subst hdist
  simp only [score_loop]
  rw [hgrid]

/-- The loop on a single remaining point returns the accumulators. -/
lemma score_loop_one (grid : ℝ → ℝ → Except Unit GridEnv) (mode : Mode)
    (p : ℝ × ℝ) (e : ℝ) (m : ℤ) (segs : List Seg) :
    score_loop grid mode [p] e m segs = Except.ok (round1 e, m, segs) := rfl

/-- The grid provider of the C2 scenario: constant aqi 80 everywhere. -/
noncomputable def grid80 : ℝ → ℝ → Except Unit GridEnv := fun _ _ => Except.ok ⟨some 80⟩

/-- C2 evaluated on the code: for the two-point route (0,0) to (0, 0.01) in
    walk mode under a constant aqi 80 provider, max_aqi is indeed 80, but the
    single segment length and the returned exposure_index both exceed
    20,000,000 instead of the expected roughly 1110, because the swapped atan2
    arguments make the segment distance 6371000 * pi * 179.99 / 180 metres. -/
theorem C2_scenario_eval :
    ∃ (e : ℝ) (s : Seg),
      score_polyline grid80 Mode.walk [(0, 0), (0, 1 / 100)] = Except.ok (e, 80, [s]) ∧
      20000000 < e ∧ (20000000 : ℤ) < s.len_m ∧ s.aqi = 80 := by
  have hD : haversine_m 0 0 0 (1 / 100)
      = 6371000 * Real.pi * (180 - (1 / 100 - 0)) / 180 :=
    haversine_equator 0 (1 / 100) (by norm_num) (by norm_num)
  set A : ℝ := 6371000 * Real.pi * (180 - (1 / 100 - 0)) / 180 with hAdef
  have hA_lb : (20000001 : ℝ) < A := by
    rw [hAdef]
    nlinarith [Real.pi_gt_d2]
  have hdur : max 1 (A / (mode_speed_kmh Mode.walk * 1000 / 3600)) = A * 3 / 4 := by
    rw [show mode_speed_kmh Mode.walk = (4.8 : ℝ) from rfl]
    rw [show A / ((4.8 : ℝ) * 1000 / 3600) = A * 3 / 4 by ring]
    exact max_eq_right (by linarith)
  have haqi : round ((GridEnv.mk (some 80)).aqi.getD 0) = (80 : ℤ) := by
    show round ((80 : ℝ)) = 80
    exact round_real_eval (by norm_num) (by norm_num)
  have hexp : ((80 : ℤ) : ℝ) * ((A * 3 / 4) / 60) * mode_inhal Mode.walk = A := by
    rw [show mode_inhal Mode.walk = (1.0 : ℝ) from rfl]
    push_cast
    ring
  refine ⟨round1 (0 + A),
    { src := (0, 0), dst := (1 / 100, 0), len_m := rtrunc A,
      dur_s := rtrunc (A * 3 / 4), aqi := 80, exposure := round1 A }, ?_, ?_, ?_, rfl⟩
  · rw [score_polyline,
      score_loop_cons_eval grid80 Mode.walk (0, 0) (0, 1 / 100) [] 0 0 []
        ⟨some 80⟩ A (A * 3 / 4) A 80 rfl hD hdur haqi hexp,
      score_loop_one]
    norm_num
  · have hfl : ((0 : ℝ) + A) * 10 + 1 / 2 - 1 < ((⌊((0 : ℝ) + A) * 10 + 1 / 2⌋ : ℤ) : ℝ) :=
      Int.sub_one_lt_floor _
    rw [round1, round_eq]
    rw [zero_add] at hfl ⊢
    have : A * 10 - 1 / 2 < ((⌊A * 10 + 1 / 2⌋ : ℤ) : ℝ) := by linarith
    linarith
  · show (20000000 : ℤ) < rtrunc A
    rw [rtrunc, if_pos (by linarith)]
    have h1 : (20000001 : ℤ) ≤ ⌊A⌋ := Int.le_floor.mpr (by push_cast; linarith)
    linarith

/-- C1: the swapped atan2 arguments make the distance of a point to itself
    equal 6371000 * pi metres, which is nonzero, refuting distance(a, a) = 0;
    symmetry of the distance function does hold. -/
theorem C1_haversine_eval :
    haversine_m 0 0 0 0 = 6371000 * Real.pi ∧
    haversine_m 0 0 0 0 ≠ 0 ∧
    ∀ lat1 lon1 lat2 lon2 : ℝ,
      haversine_m lat1 lon1 lat2 lon2 = haversine_m lat2 lon2 lat1 lon1 := by
  have h1 : haversine_m 0 0 0 0 = 6371000 * Real.pi := by
    have := haversine_equator 0 0 (by norm_num) (by norm_num)
    rw [this]
    norm_num
  refine ⟨h1, ?_, fun a b c d => haversine_symm a b c d⟩
  rw [h1]
  have := Real.pi_pos
  positivity

/-- The OpenAQGridProvider.get_aqi_cell payload construction
    (backend provider, lines 121 to 226), with the two-step HTTP fetch
    abstracted as a fallible computation of the pollutant values: both except
    branches of the source set values to the empty dictionary, so the returned
    payload always carries aqi = _aqi_from_pollutants(values), which is 0 on
    any fetch failure. The cache read-through is omitted; on a cache miss the
    behaviour is the one modelled here. -/
def openaq_get_aqi_cell (fetch : Except Unit Pollutants) : GridEnv :=
  let values : Pollutants :=
    match fetch with
    | Except.ok v => v
    | Except.error _ => emptyPollutants
  { aqi := some ((aqi_from_pollutants values : ℤ) : ℝ) }

/-- Rounding zero to one decimal gives zero. -/
lemma round1_zero : round1 0 = 0 := by
  rw [round1]
  simp

/-- Under a provider whose fetch always fails, every segment scores aqi 0 and
    exposure 0, the accumulators pass through, and the loop still covers one
    segment per consecutive point pair. -/
lemma score_loop_zero_grid (mode : Mode) :
    ∀ (pts : List (ℝ × ℝ)) (e : ℝ) (m : ℤ) (segs : List Seg), 0 ≤ m →
      ∃ segsN : List Seg,
        score_loop (fun _ _ => Except.ok (openaq_get_aqi_cell (Except.error ()))) mode pts e m segs
          = Except.ok (round1 e, m, segs ++ segsN) ∧
        segsN.length = pts.length - 1 ∧
        ∀ s ∈ segsN, s.aqi = 0 ∧ s.exposure = 0
  | [], e, m, segs, _ => ⟨[], by simp [score_loop], rfl, by simp⟩
  | [p], e, m, segs, _ => ⟨[], by simp [score_loop], rfl, by simp⟩
  | p :: q :: rest, e, m, segs, hm => by
    have haqi : round ((openaq_get_aqi_cell (Except.error ())).aqi.getD 0) = (0 : ℤ) := by
      show round (((0 : ℤ) : ℝ)) = 0
      exact round_intCast 0
    have hexp : ((0 : ℤ) : ℝ)
        * (max 1 (haversine_m p.1 p.2 q.1 q.2 / (mode_speed_kmh mode * 1000 / 3600)) / 60)
        * mode_inhal mode = 0 := by
      push_cast
      ring
    rw [score_loop_cons_eval _ mode p q rest e m segs (openaq_get_aqi_cell (Except.error ()))
      (haversine_m p.1 p.2 q.1 q.2)
      (max 1 (haversine_m p.1 p.2 q.1 q.2 / (mode_speed_kmh mode * 1000 / 3600))) 0 0
      rfl rfl rfl haqi hexp]
    rw [add_zero, max_eq_left hm]
    obtain ⟨segsN, hEq, hLen, hAll⟩ := score_loop_zero_grid mode (q :: rest) e m
      (segs ++ [{ src := (p.2, p.1), dst := (q.2, q.1),
                  len_m := rtrunc (haversine_m p.1 p.2 q.1 q.2),
                  dur_s := rtrunc (max 1 (haversine_m p.1 p.2 q.1 q.2
                             / (mode_speed_kmh mode * 1000 / 3600))),
                  aqi := 0, exposure := round1 0 }]) hm
    refine ⟨{ src := (p.2, p.1), dst := (q.2, q.1),
                len_m := rtrunc (haversine_m p.1 p.2 q.1 q.2),
                dur_s := rtrunc (max 1 (haversine_m p.1 p.2 q.1 q.2
                           / (mode_speed_kmh mode * 1000 / 3600))),
                aqi := 0, exposure := round1 0 } :: segsN, ?_, ?_, ?_⟩
    · rw [hEq]
      simp [List.append_assoc]
    · simp only [List.length_cons] at hLen ⊢
      omega
    · intro s hs
      rcases List.mem_cons.mp hs with h | h
      · subst h
        exact ⟨rfl, round1_zero⟩
      · exact hAll s h

/-- C5 counterexample: score_polyline has no handler around the provider call,
    so a provider whose get_aqi_cell call raises aborts the scoring of the
    whole two-segment route: the result is the propagated error, not a scored
    result covering every segment. -/
theorem C5_counterexample :
    score_polyline (fun _ _ => Except.error ()) Mode.walk [(0, 0), (0, 1)]
      = Except.error () := rfl

/-- C5 amended: failures inside the get_aqi_cell fetch of the OpenAQ provider
    are caught there and surface as an aqi = 0 payload, so scoring completes
    over every segment of the route with that segment treated as aqi 0; only
    an exception escaping the provider call itself aborts score_polyline. -/
theorem C5_fetch_failure_amended (mode : Mode) (pts : List (ℝ × ℝ)) :
    ∃ segs : List Seg,
      score_polyline (fun _ _ => Except.ok (openaq_get_aqi_cell (Except.error ()))) mode pts
        = Except.ok (0, 0, segs) ∧
      segs.length = pts.length - 1 ∧
      ∀ s ∈ segs, s.aqi = 0 ∧ s.exposure = 0 := by
  obtain ⟨segsN, hEq, hLen, hAll⟩ := score_loop_zero_grid mode pts 0 0 [] le_rfl
  refine ⟨segsN, ?_, hLen, hAll⟩
  rw [score_polyline, hEq, round1_zero]
  simp

/-- Distance of one loop segment. -/
noncomputable def seg_dist (p q : ℝ × ℝ) : ℝ := haversine_m p.1 p.2 q.1 q.2

/-- Duration of one loop segment: at least one second. -/
noncomputable def seg_dur (mode : Mode) (p q : ℝ × ℝ) : ℝ :=
  max 1 (seg_dist p q / (mode_speed_kmh mode * 1000 / 3600))

/-- Rounded aqi read from the provider at the segment midpoint. -/
noncomputable def seg_aqi (g : ℝ → ℝ → GridEnv) (p q : ℝ × ℝ) : ℤ :=
  round ((g ((p.1 + q.1) / 2) ((p.2 + q.2) / 2)).aqi.getD 0)

/-- Unrounded exposure contribution of one segment. -/
noncomputable def seg_exp (g : ℝ → ℝ → GridEnv) (mode : Mode) (p q : ℝ × ℝ) : ℝ :=
  (seg_aqi g p q : ℝ) * (seg_dur mode p q / 60) * mode_inhal mode

/-- The segment record the loop appends for one point pair. -/
noncomputable def seg_mk (g : ℝ → ℝ → GridEnv) (mode : Mode) (p q : ℝ × ℝ) : Seg :=
  { src := (p.2, p.1), dst := (q.2, q.1), len_m := rtrunc (seg_dist p q),
    dur_s := rtrunc (seg_dur mode p q), aqi := seg_aqi g p q,
    exposure := round1 (seg_exp g mode p q) }

/-- One unfolding step of the total loop in terms of the per-segment helpers. -/
lemma score_loop_t_cons (g : ℝ → ℝ → GridEnv) (mode : Mode) (p q : ℝ × ℝ)
    (rest : List (ℝ × ℝ)) (e : ℝ) (m : ℤ) (segs : List Seg) :
    score_loop_t g mode (p :: q :: rest) e m segs
      = score_loop_t g mode (q :: rest) (e + seg_exp g mode p q)
          (max m (seg_aqi g p q)) (segs ++ [seg_mk g mode p q]) := rfl

/-- The returned exposure is the one-decimal rounding of the sum of the
    unrounded per-segment exposures, while the emitted segment records carry
    the individually rounded values. -/
lemma score_loop_t_raws (g : ℝ → ℝ → GridEnv) (mode : Mode) :
    ∀ (pts : List (ℝ × ℝ)) (e : ℝ) (m : ℤ) (segs : List Seg),
      ∃ (raws : List ℝ) (mF : ℤ) (segsN : List Seg),
        score_loop_t g mode pts e m segs = (round1 (e + raws.sum), mF, segs ++ segsN) ∧
        segsN.map Seg.exposure = raws.map round1
  | [], e, m, segs => ⟨[], m, [], by simp [score_loop_t], by simp⟩
  | [p], e, m, segs => ⟨[], m, [], by simp [score_loop_t], by simp⟩
  | p :: q :: rest, e, m, segs => by
    rw [score_loop_t_cons]
    obtain ⟨raws, mF, segsN, hEq, hMap⟩ := score_loop_t_raws g mode (q :: rest)
      (e + seg_exp g mode p q) (max m (seg_aqi g p q)) (segs ++ [seg_mk g mode p q])
    refine ⟨seg_exp g mode p q :: raws, mF, seg_mk g mode p q :: segsN, ?_, ?_⟩
    · rw [hEq, List.sum_cons, ← add_assoc]
      simp [List.append_assoc]
    · simp [hMap, seg_mk]

/-- C6 amended: for every route scored under a provider that never raises, the
    returned exposure_index is round(sum of unrounded segment exposures, 1),
    and the segment list carries each exposure rounded to one decimal
    individually; additivity holds for the unrounded values, but the reported
    total is not in general the sum of the reported per-segment values. -/
theorem C6_additivity_amended (g : ℝ → ℝ → GridEnv) (mode : Mode) (pts : List (ℝ × ℝ)) :
    ∃ (raws : List ℝ) (e : ℝ) (m : ℤ) (segs : List Seg),
      score_polyline (fun a b => Except.ok (g a b)) mode pts = Except.ok (e, m, segs) ∧
      e = round1 raws.sum ∧
      segs.map Seg.exposure = raws.map round1 := by
  obtain ⟨raws, mF, segsN, hEq, hMap⟩ := score_loop_t_raws g mode pts 0 0 []
  refine ⟨raws, round1 raws.sum, mF, segsN, ?_, rfl, hMap⟩
  rw [score_polyline_total, score_t, hEq]
  simp

/-- A longitude step just below 180 degrees; with the swapped atan2 arguments
    the equator segment it spans comes out pi / 3 metres long, which keeps the
    exposure arithmetic exactly computable. -/
noncomputable def lon_near_180 : ℝ := 180 - 60 / 6371000

/-- Length the code assigns to the equator segment from longitude 0 to
    lon_near_180. -/
lemma hav_near_180_left : haversine_m 0 0 0 lon_near_180 = Real.pi / 3 := by
  have h := haversine_equator 0 lon_near_180 (by rw [lon_near_180]; norm_num)
    (by rw [lon_near_180]; norm_num)
  rw [h, lon_near_180]
  ring

/-- Length the code assigns to the equator segment from lon_near_180 to twice
    that longitude. -/
lemma hav_near_180_right :
    haversine_m 0 lon_near_180 0 (2 * lon_near_180) = Real.pi / 3 := by
  have h := haversine_equator lon_near_180 (2 * lon_near_180)
    (by rw [lon_near_180]; norm_num) (by rw [lon_near_180]; norm_num)
  rw [h, lon_near_180]
  ring

/-- A pi / 3 metre walk segment is shorter than one second of travel, so the
    duration floor of one second applies. -/
lemma walk_dur_near_180 :
    max 1 (Real.pi / 3 / (mode_speed_kmh Mode.walk * 1000 / 3600)) = 1 := by
  rw [show mode_speed_kmh Mode.walk = (4.8 : ℝ) from rfl]
  refine max_eq_left ?_
  have := Real.pi_lt_four
  rw [div_le_one (by norm_num)]
  nlinarith

/-- C6 counterexample: a three-point route whose two segments each contribute
    an unrounded exposure of 2/15. The reported exposure_index is
    round(4/15, 1) = 0.3, while the two reported segment exposures are
    round(2/15, 1) = 0.1 each, so the returned total differs from the sum of
    the returned per-segment values. -/
theorem C6_counterexample :
    ∃ s1 s2 : Seg,
      score_polyline (fun _ _ => Except.ok ⟨some 8⟩) Mode.walk
        [(0, 0), (0, lon_near_180), (0, 2 * lon_near_180)]
        = Except.ok (3 / 10, 8, [s1, s2]) ∧
      s1.exposure = 1 / 10 ∧ s2.exposure = 1 / 10 ∧ ((3 : ℝ) / 10) ≠ 1 / 10 + 1 / 10 := by
  have haqi : round ((GridEnv.mk (some 8)).aqi.getD 0) = (8 : ℤ) := by
    show round ((8 : ℝ)) = 8
    exact round_real_eval (by norm_num) (by norm_num)
  have hexp : ((8 : ℤ) : ℝ) * ((1 : ℝ) / 60) * mode_inhal Mode.walk = 2 / 15 := by
    rw [show mode_inhal Mode.walk = (1.0 : ℝ) from rfl]
    push_cast
    ring
  have hr1 : round1 ((2 : ℝ) / 15) = 1 / 10 := by
    rw [round1_eval (n := 1) (by norm_num) (by norm_num)]
    norm_num
  have hr3 : round1 ((0 : ℝ) + 2 / 15 + 2 / 15) = 3 / 10 := by
    rw [show ((0 : ℝ) + 2 / 15 + 2 / 15) = 4 / 15 by norm_num]
    rw [round1_eval (n := 3) (by norm_num) (by norm_num)]
    norm_num
  refine ⟨{ src := (0, 0), dst := (lon_near_180, 0), len_m := rtrunc (Real.pi / 3),
            dur_s := rtrunc 1, aqi := 8, exposure := 1 / 10 },
          { src := (lon_near_180, 0), dst := (2 * lon_near_180, 0),
            len_m := rtrunc (Real.pi / 3), dur_s := rtrunc 1, aqi := 8,
            exposure := 1 / 10 }, ?_, rfl, rfl, by norm_num⟩
  rw [score_polyline,
    score_loop_cons_eval _ Mode.walk (0, 0) (0, lon_near_180) [(0, 2 * lon_near_180)]
      0 0 [] ⟨some 8⟩ (Real.pi / 3) 1 (2 / 15) 8 rfl hav_near_180_left walk_dur_near_180
      haqi hexp,
    score_loop_cons_eval _ Mode.walk (0, lon_near_180) (0, 2 * lon_near_180) []
      (0 + 2 / 15) (max 0 8) ([] ++ [_]) ⟨some 8⟩ (Real.pi / 3) 1 (2 / 15) 8 rfl
      hav_near_180_right walk_dur_near_180 haqi hexp,
    score_loop_one, hr1, hr3]
  norm_num

/-- OSRM profile chosen by ComputeRouteUseCase.handle (use_cases.py line 9). -/
inductive Profile
  | foot
  | bike
deriving DecidableEq

/-- profile = foot if mode in (walk, run) else bike. -/
def profile_of : Mode → Profile
  | Mode.walk => Profile.foot
  | Mode.run => Profile.foot
  | Mode.bike => Profile.bike

/-- One route returned by the routing provider: decoded geometry plus the
    distance and duration fields the provider reports. -/
structure RouteIn where
  geometry : List (ℝ × ℝ)
  distance : ℝ
  duration : ℝ

/-- The item dictionary built for one route (use_cases.py lines 14 to 21). -/
structure ScoredItem where
  polyline : List (ℝ × ℝ)
  distance_km : ℝ
  duration_min : ℝ
  exposure_index : ℝ
  max_aqi_on_path : ℤ
  segments : List Seg

/-- Construction of the item dictionary from a route and the triple returned
    by score_polyline. -/
noncomputable def mk_item (r : RouteIn) (t : ℝ × ℤ × List Seg) : ScoredItem :=
  { polyline := r.geometry, distance_km := round2 (r.distance / 1000),
    duration_min := round1 (r.duration / 60), exposure_index := t.1,
    max_aqi_on_path := t.2.1, segments := t.2.2 }

/-- Line 22 of use_cases.py: if aqi_threshold and max_aqi > aqi_threshold, the
    exposure_index of the item is multiplied by 10. Python truthiness makes a
    None or zero threshold skip the penalty. -/
noncomputable def apply_penalty (th : Option ℚ) (item : ScoredItem) : ScoredItem :=
  match th with
  | none => item
  | some t =>
    if t ≠ 0 ∧ t < (item.max_aqi_on_path : ℚ) then
      { item with exposure_index := item.exposure_index * 10 }
    else item

/-- The scoring loop of handle (lines 11 to 23): every route is scored in
    order, an exception from score_polyline propagates, and each item receives
    the optional penalty. -/
noncomputable def score_all (grid : ℝ → ℝ → Except Unit GridEnv) (mode : Mode)
    (th : Option ℚ) : List RouteIn → Except Unit (List ScoredItem)
  | [] => Except.ok []
  | r :: rest =>
    match score_polyline grid mode r.geometry with
    | Except.error e => Except.error e
    | Except.ok t =>
      match score_all grid mode th rest with
      | Except.error e => Except.error e
      | Except.ok l => Except.ok (apply_penalty th (mk_item r t) :: l)

/-- ComputeRouteUseCase.handle (lines 8 to 27): the router is asked for
    alternatives = 1, every returned route is scored, and best = scored[0] is
    returned without any normalization or score comparison; an empty scored
    list makes scored[0] raise, modelled as the error case. -/
noncomputable def compute_route_handle
    (router : (ℝ × ℝ) × (ℝ × ℝ) → Profile → ℕ → List RouteIn)
    (grid : ℝ → ℝ → Except Unit GridEnv)
    (origin dest : ℝ × ℝ) (mode : Mode) (aqi_threshold : Option ℚ) :
    Except Unit ScoredItem :=
  let routes := router (origin, dest) (profile_of mode) 1
  match score_all grid mode aqi_threshold routes with
  | Except.error e => Except.error e
  | Except.ok scored =>
    match scored with
    | [] => Except.error ()
    | best :: _ => Except.ok best

/-- Under a provider that never raises, score_all succeeds and maps every
    route to its penalised item. -/
lemma score_all_total (g : ℝ → ℝ → GridEnv) (mode : Mode) (th : Option ℚ) :
    ∀ routes : List RouteIn,
      score_all (fun a b => Except.ok (g a b)) mode th routes
        = Except.ok (routes.map fun r => apply_penalty th (mk_item r (score_t g mode r.geometry)))
  | [] => rfl
  | r :: rest => by
    simp only [score_all, score_polyline_total, score_all_total g mode th rest, List.map_cons]

/-- C10: handle asks the routing provider for exactly one alternative, and for
    every nonempty provider response at that request it returns the first
    scored route, with no normalization and no comparison among routes: the
    result is exactly the penalised item of the first route. -/
theorem C10_first_route (router : (ℝ × ℝ) × (ℝ × ℝ) → Profile → ℕ → List RouteIn)
    (g : ℝ → ℝ → GridEnv) (o d : ℝ × ℝ) (mode : Mode) (th : Option ℚ)
    (r : RouteIn) (rest : List RouteIn)
    (h : router (o, d) (profile_of mode) 1 = r :: rest) :
    compute_route_handle router (fun a b => Except.ok (g a b)) o d mode th
      = Except.ok (apply_penalty th (mk_item r (score_t g mode r.geometry))) := by
  simp only [compute_route_handle, h, score_all_total, List.map_cons]

/-- Witness for C10 at a concrete router returning one route with an empty
    geometry, a provider reporting no aqi, walk mode and no threshold. -/
theorem C10_first_route_witness :
    compute_route_handle (fun _ _ _ => [RouteIn.mk [] 0 0])
        (fun _ _ => Except.ok (GridEnv.mk none)) (0, 0) (0, 0) Mode.walk none
      = Except.ok (apply_penalty none
          (mk_item (RouteIn.mk [] 0 0)
            (score_t (fun _ _ => GridEnv.mk none) Mode.walk []))) :=
  C10_first_route (fun _ _ _ => [RouteIn.mk [] 0 0]) (fun _ _ => GridEnv.mk none)
    (0, 0) (0, 0) Mode.walk none (RouteIn.mk [] 0 0) [] rfl


/-- One unfolding step of the total loop, with every derived quantity supplied
    as an equation. -/
lemma score_loop_t_cons_eval (g : ℝ → ℝ → GridEnv) (mode : Mode)
    (p q : ℝ × ℝ) (rest : List (ℝ × ℝ)) (e : ℝ) (m : ℤ) (segs : List Seg)
    (dist dur segexp : ℝ) (aqiv : ℤ)
    (hdist : haversine_m p.1 p.2 q.1 q.2 = dist)
    (hdur : max 1 (dist / (mode_speed_kmh mode * 1000 / 3600)) = dur)
    (haqi : round ((g ((p.1 + q.1) / 2) ((p.2 + q.2) / 2)).aqi.getD 0) = aqiv)
    (hexp : (aqiv : ℝ) * (dur / 60) * mode_inhal mode = segexp) :
    score_loop_t g mode (p :: q :: rest) e m segs
      = score_loop_t g mode (q :: rest) (e + segexp) (max m aqiv)
          (segs ++ [{ src := (p.2, p.1), dst := (q.2, q.1), len_m := rtrunc dist,
                      dur_s := rtrunc dur, aqi := aqiv, exposure := round1 segexp }]) := by
  subst hexp
  subst haqi
  subst hdur
  subst hdist
  rfl

/-- The total loop on a single remaining point returns the accumulators. -/
lemma score_loop_t_one (g : ℝ → ℝ → GridEnv) (mode : Mode)
    (p : ℝ × ℝ) (e : ℝ) (m : ℤ) (segs : List Seg) :
    score_loop_t g mode [p] e m segs = (round1 e, m, segs) := rfl

/-- Provider for the C8 scenario: aqi 120 - lat, so the equator route sees
    aqi 120 and the route at latitude 60 sees aqi 60. -/
noncomputable def grid_c8 : ℝ → ℝ → GridEnv := fun lat _ => GridEnv.mk (some (120 - lat))

/-- First candidate of the C8 scenario: equator route, max aqi 120. -/
noncomputable def r1_c8 : RouteIn := RouteIn.mk [(0, 0), (0, lon_near_180)] 1000 100

/-- Second candidate of the C8 scenario: same shape at latitude 60, max aqi 60,
    below the threshold 100. -/
noncomputable def r2_c8 : RouteIn := RouteIn.mk [(60, 0), (60, lon_near_180)] 1000 100

/-- C8 counterexample: with threshold 100, the first candidate has max aqi 120
    and receives the times-10 penalty (exposure_index 20), the second is an
    otherwise similar candidate with max aqi 60 below the threshold, yet handle
    still returns the penalised first candidate: no normalization or combined
    score exists in this path, so the penalty does not disadvantage the noisy
    route relative to the clean one. -/
theorem C8_counterexample :
    ∃ it : ScoredItem,
      compute_route_handle (fun _ _ _ => [r1_c8, r2_c8])
          (fun a b => Except.ok (grid_c8 a b)) (0, 0) (0, 1) Mode.walk (some 100)
        = Except.ok it ∧
      it.polyline = r1_c8.geometry ∧
      it.max_aqi_on_path = 120 ∧
      it.exposure_index = 20 ∧
      (score_t grid_c8 Mode.walk r2_c8.geometry).2.1 = 60 ∧
      ¬ ((120 : ℤ) ≤ 100) ∧ (60 : ℤ) ≤ 100 ∧
      it.polyline ≠ r2_c8.geometry := by
  have haqi1 : round ((grid_c8 (((0 : ℝ) + 0) / 2) ((0 + lon_near_180) / 2)).aqi.getD 0)
      = (120 : ℤ) := by
    show round ((120 : ℝ) - ((0 : ℝ) + 0) / 2) = 120
    exact round_real_eval (by norm_num) (by norm_num)
  have hexp1 : ((120 : ℤ) : ℝ) * ((1 : ℝ) / 60) * mode_inhal Mode.walk = 2 := by
    rw [show mode_inhal Mode.walk = (1.0 : ℝ) from rfl]
    push_cast
    ring
  have hr2 : round1 ((0 : ℝ) + 2) = 2 := by
    rw [show ((0 : ℝ) + 2) = 2 by norm_num]
    rw [round1_eval (n := 20) (by norm_num) (by norm_num)]
    norm_num
  have ht1 : score_t grid_c8 Mode.walk r1_c8.geometry
      = (2, 120, [{ src := (0, 0), dst := (lon_near_180, 0),
                      len_m := rtrunc (Real.pi / 3), dur_s := rtrunc 1, aqi := 120,
                      exposure := round1 2 }]) := by
    rw [show r1_c8.geometry = [((0 : ℝ), 0), (0, lon_near_180)] from rfl]
    rw [score_t,
      score_loop_t_cons_eval grid_c8 Mode.walk (0, 0) (0, lon_near_180) [] 0 0 []
        (Real.pi / 3) 1 2 120 hav_near_180_left walk_dur_near_180 haqi1 hexp1,
      score_loop_t_one, hr2]
    norm_num
  have haqi2 : round ((grid_c8 (((60 : ℝ) + 60) / 2) ((0 + lon_near_180) / 2)).aqi.getD 0)
      = (60 : ℤ) := by
    show round ((120 : ℝ) - ((60 : ℝ) + 60) / 2) = 60
    exact round_real_eval (by norm_num) (by norm_num)
  have ht2 : (score_t grid_c8 Mode.walk r2_c8.geometry).2.1 = 60 := by
    rw [show r2_c8.geometry = [((60 : ℝ), 0), (60, lon_near_180)] from rfl]
    rw [score_t,
      score_loop_t_cons_eval grid_c8 Mode.walk (60, 0) (60, lon_near_180) [] 0 0 []
        (haversine_m 60 0 60 lon_near_180)
        (max 1 (haversine_m 60 0 60 lon_near_180 / (mode_speed_kmh Mode.walk * 1000 / 3600)))
        (((60 : ℤ) : ℝ)
          * (max 1 (haversine_m 60 0 60 lon_near_180 / (mode_speed_kmh Mode.walk * 1000 / 3600)) / 60)
          * mode_inhal Mode.walk) 60 rfl rfl haqi2 rfl,
      score_loop_t_one]
    show max (0 : ℤ) 60 = 60
    decide
  have hmain : compute_route_handle (fun _ _ _ => [r1_c8, r2_c8])
      (fun a b => Except.ok (grid_c8 a b)) (0, 0) (0, 1) Mode.walk (some 100)
      = Except.ok (apply_penalty (some 100)
          (mk_item r1_c8 (score_t grid_c8 Mode.walk r1_c8.geometry))) := by
    simp only [compute_route_handle, score_all_total, List.map_cons]
  rw [ht1] at hmain
  have hpen : apply_penalty (some 100)
      (mk_item r1_c8 (2, 120, [{ src := ((0 : ℝ), (0 : ℝ)), dst := (lon_near_180, 0),
                                   len_m := rtrunc (Real.pi / 3), dur_s := rtrunc 1, aqi := 120,
                                   exposure := round1 2 }]))
      = { polyline := r1_c8.geometry, distance_km := round2 (r1_c8.distance / 1000),
          duration_min := round1 (r1_c8.duration / 60), exposure_index := 2 * 10,
          max_aqi_on_path := 120,
          segments := [{ src := ((0 : ℝ), (0 : ℝ)), dst := (lon_near_180, 0),
                           len_m := rtrunc (Real.pi / 3), dur_s := rtrunc 1, aqi := 120,
                           exposure := round1 2 }] } := by
    rw [apply_penalty]
    rw [if_pos ⟨by norm_num, by
      show (100 : ℚ) < ((120 : ℤ) : ℚ)
      push_cast
      norm_num⟩]
    rfl
  rw [hpen] at hmain
  refine ⟨_, hmain, rfl, rfl, by norm_num, ht2, by norm_num, by norm_num, ?_⟩
  show r1_c8.geometry ≠ r2_c8.geometry
  rw [show r1_c8.geometry = [((0 : ℝ), 0), (0, lon_near_180)] from rfl,
    show r2_c8.geometry = [((60 : ℝ), 0), (60, lon_near_180)] from rfl]
  simp only [ne_eq, List.cons.injEq, Prod.mk.injEq]
  intro h
  exact absurd h.1.1 (by norm_num)

/-- C8 amended: in the use-case path, when aqi_threshold is supplied nonzero
    and the max aqi of a candidate exceeds it, that candidate carries
    exposure_index multiplied by 10 in the returned item and is otherwise
    unchanged; but the result of handle is always the penalised first route,
    with no normalization and no combined score downstream of the penalty, and
    a None threshold leaves every item untouched. -/
theorem C8_penalty_amended :
    (∀ (g : ℝ → ℝ → GridEnv) (mode : Mode) (th : Option ℚ) (o d : ℝ × ℝ)
        (r : RouteIn) (rest : List RouteIn),
        compute_route_handle (fun _ _ _ => r :: rest) (fun a b => Except.ok (g a b)) o d mode th
          = Except.ok (apply_penalty th (mk_item r (score_t g mode r.geometry)))) ∧
    (∀ (t : ℚ) (item : ScoredItem),
        (apply_penalty (some t) item).exposure_index
          = (if t ≠ 0 ∧ t < (item.max_aqi_on_path : ℚ) then item.exposure_index * 10
             else item.exposure_index) ∧
        (apply_penalty (some t) item).max_aqi_on_path = item.max_aqi_on_path ∧
        (apply_penalty (some t) item).polyline = item.polyline) ∧
    (∀ item : ScoredItem, apply_penalty none item = item) := by
  refine ⟨?_, ?_, fun item => rfl⟩
  · intro g mode th o d r rest
    simp only [compute_route_handle, score_all_total, List.map_cons]
  · intro t item
    refine ⟨?_, ?_, ?_⟩
    · rw [apply_penalty]
      split_ifs <;> rfl
    · rw [apply_penalty]
      split_ifs <;> rfl
    · rw [apply_penalty]
      split_ifs <;> rfl


/-- One evaluation dictionary of OptimalRouteView.get
    (backend-api views.py lines 122 to 128). -/
structure EvalR where
  polyline : List (ℝ × ℝ)
  distance : ℝ
  duration : ℝ
  exposure_index : ℝ
  avg_aqi : ℝ

/-- Python max over a nonempty collection, first element split off. -/
noncomputable def list_max (x : ℝ) (l : List ℝ) : ℝ := l.foldl max x

/-- Python min over a nonempty collection, first element split off. -/
noncomputable def list_min (x : ℝ) (l : List ℝ) : ℝ := l.foldl min x

/-- The epsilon-guarded normalization of views.py lines 137 to 138. -/
noncomputable def norm_val (v lo hi : ℝ) : ℝ := (v - lo) / (hi - lo + 1e-9)

/-- Python min(list, key): the first element of minimal key is kept, since the
    fold replaces the best only on a strictly smaller key. -/
noncomputable def py_min_by {α : Type} (key : α → ℝ) : List α → Option α
  | [] => none
  | x :: xs => some (xs.foldl (fun best y => if key y < key best then y else best) x)

/-- The normalization and selection block of OptimalRouteView.get
    (views.py lines 130 to 142): min and max of distance and exposure over the
    candidate set, epsilon-guarded normalization, combined score
    alpha * norm_dist + beta * norm_exp, and selection of the minimum score. -/
noncomputable def select_optimal (evals : List EvalR) (alpha beta : ℝ) :
    Option (EvalR × ℝ) :=
  match evals with
  | [] => none
  | e0 :: rest =>
    let max_dist := list_max e0.distance (rest.map EvalR.distance)
    let max_exp := list_max e0.exposure_index (rest.map EvalR.exposure_index)
    let min_dist := list_min e0.distance (rest.map EvalR.distance)
    let min_exp := list_min e0.exposure_index (rest.map EvalR.exposure_index)
    let scored := (e0 :: rest).map fun x =>
      (x, alpha * norm_val x.distance min_dist max_dist
            + beta * norm_val x.exposure_index min_exp max_exp)
    py_min_by Prod.snd scored

/-- Maximum of a constant collection. -/
lemma list_max_const (x : ℝ) : ∀ l : List ℝ, (∀ y ∈ l, y = x) → list_max x l = x
  | [], _ => rfl
  | a :: l, h => by
    have ha : a = x := h a (List.mem_cons_self a l)
    rw [list_max, List.foldl_cons, ha, max_self]
    exact list_max_const x l fun y hy => h y (List.mem_cons_of_mem a hy)

/-- Minimum of a constant collection. -/
lemma list_min_const (x : ℝ) : ∀ l : List ℝ, (∀ y ∈ l, y = x) → list_min x l = x
  | [], _ => rfl
  | a :: l, h => by
    have ha : a = x := h a (List.mem_cons_self a l)
    rw [list_min, List.foldl_cons, ha, min_self]
    exact list_min_const x l fun y hy => h y (List.mem_cons_of_mem a hy)

/-- The Python min fold keeps its seed when no key is strictly smaller. -/
lemma foldl_min_keep {α : Type} (key : α → ℝ) (b : α) :
    ∀ l : List α, (∀ y ∈ l, ¬ key y < key b) →
      l.foldl (fun best y => if key y < key best then y else best) b = b
  | [], _ => rfl
  | a :: l, h => by
    rw [List.foldl_cons, if_neg (h a (List.mem_cons_self a l))]
    exact foldl_min_keep key b l fun y hy => h y (List.mem_cons_of_mem a hy)

/-- C9: over a nonempty candidate set in which every candidate has the same
    distance and the same exposure_index, both normalized values are 0 for
    every candidate (the 1e-9 epsilon keeps the denominator nonzero while the
    numerator is exactly 0), every combined score is 0, and the first
    candidate in input order is selected with score 0. -/
theorem C9_identical_candidates (e0 : EvalR) (rest : List EvalR) (alpha beta : ℝ)
    (h : ∀ x ∈ e0 :: rest, x.distance = e0.distance ∧ x.exposure_index = e0.exposure_index) :
    select_optimal (e0 :: rest) alpha beta = some (e0, 0) ∧
    (∀ x ∈ e0 :: rest,
      norm_val x.distance e0.distance e0.distance = 0 ∧
      norm_val x.exposure_index e0.exposure_index e0.exposure_index = 0 ∧
      alpha * norm_val x.distance e0.distance e0.distance
        + beta * norm_val x.exposure_index e0.exposure_index e0.exposure_index = 0) := by
  have hd : ∀ y ∈ rest.map EvalR.distance, y = e0.distance := by
    intro y hy
    obtain ⟨x, hx, rfl⟩ := List.mem_map.mp hy
    exact (h x (List.mem_cons_of_mem e0 hx)).1
  have he : ∀ y ∈ rest.map EvalR.exposure_index, y = e0.exposure_index := by
    intro y hy
    obtain ⟨x, hx, rfl⟩ := List.mem_map.mp hy
    exact (h x (List.mem_cons_of_mem e0 hx)).2
  have hmaxd := list_max_const e0.distance (rest.map EvalR.distance) hd
  have hmind := list_min_const e0.distance (rest.map EvalR.distance) hd
  have hmaxe := list_max_const e0.exposure_index (rest.map EvalR.exposure_index) he
  have hmine := list_min_const e0.exposure_index (rest.map EvalR.exposure_index) he
  have hzero : ∀ x ∈ e0 :: rest,
      norm_val x.distance e0.distance e0.distance = 0 ∧
      norm_val x.exposure_index e0.exposure_index e0.exposure_index = 0 ∧
      alpha * norm_val x.distance e0.distance e0.distance
        + beta * norm_val x.exposure_index e0.exposure_index e0.exposure_index = 0 := by
    intro x hx
    obtain ⟨hx1, hx2⟩ := h x hx
    have h1 : norm_val x.distance e0.distance e0.distance = 0 := by
      rw [norm_val, hx1, sub_self, zero_div]
    have h2 : norm_val x.exposure_index e0.exposure_index e0.exposure_index = 0 := by
      rw [norm_val, hx2, sub_self, zero_div]
    exact ⟨h1, h2, by rw [h1, h2]; ring⟩
  refine ⟨?_, hzero⟩
  rw [select_optimal]
  simp only [hmaxd, hmind, hmaxe, hmine, List.map_cons]
  have hkey0 : alpha * norm_val e0.distance e0.distance e0.distance
      + beta * norm_val e0.exposure_index e0.exposure_index e0.exposure_index = 0 :=
    (hzero e0 (List.mem_cons_self e0 rest)).2.2
  rw [py_min_by]
  rw [foldl_min_keep]
  · rw [hkey0]
  · intro y hy
    obtain ⟨x, hx, rfl⟩ := List.mem_map.mp hy
    have := (hzero x (List.mem_cons_of_mem e0 hx)).2.2
    simp only [this, hkey0]
    exact lt_irrefl 0

/-- A concrete evaluation used to witness C9. -/
def eval_w : EvalR := EvalR.mk [] 5 30 7 2

/-- Witness for C9: three identical candidates, alpha = beta = one half; the
    first is selected with score 0. -/
theorem C9_identical_candidates_witness :
    select_optimal [eval_w, eval_w, eval_w] (1 / 2) (1 / 2) = some (eval_w, 0) :=
  (C9_identical_candidates eval_w [eval_w, eval_w] (1 / 2) (1 / 2) (by
    intro x hx
    rcases List.mem_cons.mp hx with rfl | hx2
    · exact ⟨rfl, rfl⟩
    · rcases List.mem_cons.mp hx2 with rfl | hx3
      · exact ⟨rfl, rfl⟩
      · rcases List.mem_cons.mp hx3 with rfl | hx4
        · exact ⟨rfl, rfl⟩
        · cases hx4)).1
